import Mathlib

/-!
# Verification of the csv-pipeline repository

Shallow embedding of the two source programs, `src/process_csv.py` (the
generic CSV processor) and `src/clean_alibaba.py` (the fixed-schema Alibaba
cleaner), together with proofs of the specification claims.

Modelling conventions:
* A CSV row, as delivered by the external `csv.DictReader`, is a finite
  string-to-string map (`Row`), looked up with `alookup`; a key absent from
  the row behaves as the empty string (`rowGet`), mirroring
  `row.get(col, '')` in the source.
* Python `dict` assignment (`d[k] = v`: replace in place if the key exists,
  append otherwise) is `dictSet`.
* Randomness, UUIDs and the wall clock are modelled by an oracle parameter
  (`env`): the string the environment would hand the program at the given
  call site.  No claim constrains these values.
* File-system effects are made explicit in the run results: `outputOpened`
  records whether the output sink was opened (hence created/truncated), and
  the `persistOk` parameter tells whether the final rewrite of `config.json`
  succeeds (`False` models the write raising an exception).
-/

namespace CsvPipeline

/-- A Python value as it occurs in an output record: the source puts both
strings (mapped columns, most generators) and integers (the `sequential`
generator, `product_id`) into the row dictionaries. -/
inductive PyVal where
  | intV : Int → PyVal
  | strV : String → PyVal
  deriving DecidableEq, Repr

/-- An input row: the string-valued mapping produced by `csv.DictReader`. -/
abbrev Row := List (String × String)

/-- An output record: a Python dict from field name to value, in insertion
order. -/
abbrev Rec := List (String × PyVal)

/-- First-match association lookup (Python `d[k]` / `d.get(k)`). -/
def alookup {β : Type} (k : String) : List (String × β) → Option β
  | [] => none
  | (k', v) :: rest => if k' = k then some v else alookup k rest

/-- `row.get(k, '')` from the source. -/
def rowGet (row : Row) (k : String) : String := (alookup k row).getD ""

/-- Python `str.strip()`: drop leading and trailing whitespace. -/
def pyStrip (s : String) : String :=
  ⟨((s.data.dropWhile Char.isWhitespace).reverse.dropWhile
      Char.isWhitespace).reverse⟩

/-- Python dict assignment `d[k] = v`: replace the value in place when the
key is present, append the pair otherwise. -/
def dictSet {β : Type} (rec : List (String × β)) (k : String) (v : β) :
    List (String × β) :=
  if rec.any (fun p => decide (p.1 = k)) then
    rec.map (fun p => if p.1 = k then (k, v) else p)
  else rec ++ [(k, v)]

/-! ## process_csv.py -/

/-- A generated-column configuration dict (`column_config` in the source):
the keys `generate_value` and `update_sequential_starts` may read. -/
structure ColConfig where
  type : Option String := none
  start : Option Int := none
  value : Option String := none
  length : Option Nat := none
  format : Option String := none
  deriving DecidableEq, Repr

/-- `generate_value(column_config, row_number, previous_value)` from
`src/process_csv.py` (lines 54–77).  `envStr` is the oracle value standing
for the randomness / UUID / wall-clock string the environment would return
at this call; the `sequential`, `static` and unknown-type branches ignore
it, exactly as the source branches never consult the environment. -/
def generate_value (column_config : ColConfig) (row_number : Nat)
    (previous_value : Option PyVal) (envStr : String) : PyVal :=
  let col_type := column_config.type.getD "static"
  if col_type = "sequential" then
    PyVal.intV (column_config.start.getD 1 + (row_number : Int))
  else if col_type = "random_hex" then
    PyVal.strV envStr
  else if col_type = "uuid" then
    PyVal.strV envStr
  else if col_type = "static" then
    PyVal.strV (column_config.value.getD "")
  else if col_type = "timestamp" then
    PyVal.strV envStr
  else
    PyVal.strV ""

/-- The configuration sections `process_csv` reads, with the defaults the
source applies via `.get`. -/
structure ProcConfig where
  source_mapping : List (String × String) := []
  generated_columns : List (String × ColConfig) := []
  remove_blank_rows : Bool := true
  remove_duplicates : Bool := false
  duplicate_check_column : String := ""
  column_order : List String := []
  update_product_id_start : Bool := false
  auto_update_config : Bool := true
  deriving DecidableEq, Repr

/-- The `stats` dictionary of `process_csv`. -/
structure Stats where
  total_rows : Nat := 0
  kept_rows : Nat := 0
  blank_rows : Nat := 0
  duplicate_rows : Nat := 0
  deriving DecidableEq, Repr

/-- The mutable state threaded through the row loop of `process_csv`
(lines 111–190): statistics, the duplicate `seen_values` set, the
`row_number` counter, the `generated_values` memo dict, and the rows
already written to the output sink. -/
structure LoopState where
  stats : Stats := {}
  seen_values : List String := []
  row_number : Nat := 0
  generated_values : Rec := []
  written : List Rec := []
  deriving DecidableEq, Repr

/-- The column-mapping loop of `process_csv` (lines 158–166): walk the
`source_mapping` in order, trim each source value, and short-circuit with
`none` (the `has_blank` break) as soon as a trimmed value is empty while
`remove_blank` is set; otherwise return the mapped pairs in order. -/
def mapSourceColumns (source_mapping : List (String × String)) (row : Row)
    (remove_blank : Bool) : Option (List (String × String)) :=
  match source_mapping with
  | [] => some []
  | (out_col, src_col) :: rest =>
    let value := pyStrip (rowGet row src_col)
    if value = "" ∧ remove_blank then none
    else (mapSourceColumns rest row remove_blank).map
      (fun m => (out_col, value) :: m)

/-- The generated-columns loop of `process_csv` (lines 181–185): for each
configured column, read the previous value memo, call `generate_value`,
and store the result into both the output record and the memo.  Returns
(final record, final memo). -/
def addGenerated (env : String → String)
    (generated_columns : List (String × ColConfig)) (row_number : Nat)
    (generated_values : Rec) (output_row : Rec) : Rec × Rec :=
  match generated_columns with
  | [] => (output_row, generated_values)
  | (col_name, col_config) :: rest =>
    let prev := alookup col_name generated_values
    let v := generate_value col_config row_number prev (env col_name)
    addGenerated env rest row_number
      (dictSet generated_values col_name v)
      (dictSet output_row col_name v)

/-- The keep path of the row loop (lines 180–190): add generated columns,
write the row, bump `kept_rows` and `row_number`. -/
def keepRow (cfg : ProcConfig) (env : String → String) (st : LoopState)
    (output_row : Rec) : LoopState :=
  let p := addGenerated env cfg.generated_columns st.row_number
    st.generated_values output_row
  { st with
    generated_values := p.2,
    written := st.written ++ [p.1],
    stats := { st.stats with kept_rows := st.stats.kept_rows + 1 },
    row_number := st.row_number + 1 }

/-- One iteration of the row loop of `process_csv` (lines 151–190):
count the row, map columns with the blank short-circuit, apply the
duplicate filter, and keep the row otherwise. -/
def processRow (cfg : ProcConfig) (env : Nat → String → String)
    (st : LoopState) (row : Row) : LoopState :=
  let st1 := { st with
    stats := { st.stats with total_rows := st.stats.total_rows + 1 } }
  match mapSourceColumns cfg.source_mapping row cfg.remove_blank_rows with
  | none =>
    { st1 with
      stats := { st1.stats with blank_rows := st1.stats.blank_rows + 1 } }
  | some mapped =>
    let output_row : Rec := mapped.map (fun q => (q.1, PyVal.strV q.2))
    if cfg.remove_duplicates then
      match alookup cfg.duplicate_check_column mapped with
      | some dup_value =>
        if dup_value ∈ st1.seen_values then
          { st1 with
            stats := { st1.stats with
              duplicate_rows := st1.stats.duplicate_rows + 1 } }
        else
          keepRow cfg (env st1.row_number)
            { st1 with seen_values := st1.seen_values.insert dup_value }
            output_row
      | none => keepRow cfg (env st1.row_number) st1 output_row
    else keepRow cfg (env st1.row_number) st1 output_row

/-- `update_sequential_starts(config, rows_processed)` from
`src/process_csv.py` (lines 234–245), restricted to the mutation it makes
to the `generated_columns` section: every spec whose `type` key equals
`'sequential'` gets `start := old start + rows_processed`. -/
def update_sequential_starts (generated_columns : List (String × ColConfig))
    (rows_processed : Nat) : List (String × ColConfig) :=
  generated_columns.map fun p =>
    if p.2.type = some "sequential" then
      (p.1, { p.2 with
        start := some (p.2.start.getD 1 + (rows_processed : Int)) })
    else p

/-- `set(source_mapping.values()) - set(reader.fieldnames)` (line 133). -/
def missing_cols (cfg : ProcConfig) (fieldnames : List String) :
    List String :=
  ((cfg.source_mapping.map (fun p => p.2)).filter
    (fun s => decide (s ∉ fieldnames))).dedup

/-- The fatal errors `process_csv` / `clean_alibaba_csv` can report before
any output is opened. -/
inductive RunError where
  | noHeader : RunError
  | missingColumns : List String → List String → RunError
  deriving DecidableEq, Repr

/-- The observable outcome of a `process_csv` run.  `outputOpened` records
whether the output sink was opened (created/truncated); `gcfgAfter` is the
in-memory `generated_columns` section after the optional
`update_sequential_starts` call (the content a successful persist writes);
`configWritten` says `config.json` was rewritten; `persistWarning` is the
`WARNING: Could not update config` path. -/
structure ProcResult where
  error : Option RunError := none
  outputOpened : Bool := false
  output_columns : List String := []
  written : List Rec := []
  stats : Stats := {}
  gcfgAfter : List (String × ColConfig) := []
  configWritten : Bool := false
  persistWarning : Bool := false
  success : Bool := false
  deriving DecidableEq, Repr

/-- `process_csv(input_file, output_file, config)` from
`src/process_csv.py` (lines 80–231), over an already-parsed input
(`fieldnames` is `reader.fieldnames`, `rows` the data rows).  `persistOk`
tells whether the `config.json` rewrite inside
`update_sequential_starts` succeeds; its failure is caught there and only
warned about, so the run still returns `True`. -/
def process_csv (cfg : ProcConfig) (env : Nat → String → String)
    (persistOk : Bool) (fieldnames : Option (List String))
    (rows : List Row) : ProcResult :=
  match fieldnames with
  | none => { error := some RunError.noHeader }
  | some fns =>
    let missing := missing_cols cfg fns
    if missing ≠ [] then
      { error := some (RunError.missingColumns missing fns) }
    else
      let output_columns :=
        if cfg.column_order ≠ [] then cfg.column_order
        else cfg.source_mapping.map (fun p => p.1)
          ++ cfg.generated_columns.map (fun p => p.1)
      let final := rows.foldl (processRow cfg env) {}
      let gAfter :=
        if cfg.update_product_id_start then
          update_sequential_starts cfg.generated_columns final.row_number
        else cfg.generated_columns
      let updated := cfg.generated_columns.any
        (fun p => decide (p.2.type = some "sequential"))
      let attempt := cfg.update_product_id_start && updated
        && cfg.auto_update_config
      { error := none,
        outputOpened := true,
        output_columns := output_columns,
        written := final.written,
        stats := final.stats,
        gcfgAfter := gAfter,
        configWritten := attempt && persistOk,
        persistWarning := attempt && !persistOk,
        success := true }

/-! ## clean_alibaba.py -/

/-- The configuration keys `clean_alibaba_csv` reads, kept optional so the
source's `.get(..., default)` calls are explicit at the use sites. -/
structure CleanConfig where
  source_product_url : Option String := none
  source_image_url : Option String := none
  source_price : Option String := none
  source_title : Option String := none
  product_id_start : Option Int := none
  generate_random_sku : Option Bool := none
  category : Option String := none
  tags : Option String := none
  remove_blank_rows : Option Bool := none
  deriving DecidableEq, Repr

/-- `COLUMNS_TO_KEEP` from `src/clean_alibaba.py` (lines 80–85):
(source column, output column) pairs, with the config-overridable source
names and their hard-coded defaults. -/
def COLUMNS_TO_KEEP (cfg : CleanConfig) : List (String × String) :=
  [ (cfg.source_product_url.getD "searchx-product-e-slider__link href",
      "product_url"),
    (cfg.source_image_url.getD "searchx-product-e-slider__img src",
      "image_url"),
    (cfg.source_price.getD "searchx-product-price-price-main", "price"),
    (cfg.source_title.getD "searchx-product-e-title", "title") ]

/-- The `stats` dictionary of `clean_alibaba_csv`. -/
structure CleanStats where
  total_rows : Nat := 0
  kept_rows : Nat := 0
  deleted_rows : Nat := 0
  blank_cell_rows : Nat := 0
  deriving DecidableEq, Repr

/-- The state threaded through the row loop of `clean_alibaba_csv`. -/
structure CleanState where
  stats : CleanStats := {}
  current_product_id : Int := 0
  written : List Rec := []
  deriving DecidableEq, Repr

/-- The extraction loop of `clean_alibaba_csv` (lines 135–144): walk
`COLUMNS_TO_KEEP`, trim each source value; on the first blank value set
`has_blank` and break (the record keeps only the fields extracted before
the break, as in the source). -/
def extractColumns (cols : List (String × String)) (row : Row) :
    Bool × List (String × String) :=
  match cols with
  | [] => (false, [])
  | (old_col, new_col) :: rest =>
    let value := pyStrip (rowGet row old_col)
    if value = "" then (true, [])
    else
      let r := extractColumns rest row
      (r.1, (new_col, value) :: r.2)

/-- One iteration of the row loop of `clean_alibaba_csv` (lines 128–158):
count the row, extract mapped columns with the blank break (the
`blank_cell_rows` counter is bumped on detection regardless of the removal
flag), then either keep the row — adding `product_id`, `sku`, `category`,
`tags` and advancing `current_product_id` — or count it deleted.
`env` is the oracle for `generate_random_sku()`. -/
def cleanStep (cfg : CleanConfig) (env : Int → String) (st : CleanState)
    (row : Row) : CleanState :=
  let stats1 := { st.stats with total_rows := st.stats.total_rows + 1 }
  let ex := extractColumns (COLUMNS_TO_KEEP cfg) row
  let stats2 :=
    if ex.1 then
      { stats1 with blank_cell_rows := stats1.blank_cell_rows + 1 }
    else stats1
  if ex.1 = false ∨ cfg.remove_blank_rows.getD true = false then
    let cleaned0 : Rec := ex.2.map (fun q => (q.1, PyVal.strV q.2))
    let sku_val : String :=
      if cfg.generate_random_sku.getD true then env st.current_product_id
      else "SKU" ++ toString st.current_product_id
    let r1 := dictSet cleaned0 "product_id" (PyVal.intV st.current_product_id)
    let r2 := dictSet r1 "sku" (PyVal.strV sku_val)
    let r3 := dictSet r2 "category"
      (PyVal.strV (cfg.category.getD "Uncategorized"))
    let r4 := dictSet r3 "tags" (PyVal.strV (cfg.tags.getD ""))
    { stats := { stats2 with kept_rows := stats2.kept_rows + 1 },
      current_product_id := st.current_product_id + 1,
      written := st.written ++ [r4] }
  else
    { st with stats := { stats2 with deleted_rows := stats2.deleted_rows + 1 } }

/-- `set(COLUMNS_TO_KEEP.keys()) - set(reader.fieldnames)` (line 115). -/
def clean_missing_cols (cfg : CleanConfig) (fieldnames : List String) :
    List String :=
  (((COLUMNS_TO_KEEP cfg).map (fun p => p.1)).filter
    (fun s => decide (s ∉ fieldnames))).dedup

/-- The observable outcome of a `clean_alibaba_csv` run.
`persisted_product_id_start` is the `product_id_start` value written back
into `config.json` when that write succeeds. -/
structure CleanResult where
  error : Option RunError := none
  outputOpened : Bool := false
  written : List Rec := []
  stats : CleanStats := {}
  persisted_product_id_start : Option Int := none
  success : Bool := false
  deriving DecidableEq, Repr

/-- `clean_alibaba_csv(input_file, output_file, config)` from
`src/clean_alibaba.py` (lines 67–203).  Unlike `process_csv`, the
`config.json` rewrite (lines 188–192) is not individually guarded: when it
raises (`persistOk = false`), the exception reaches the function-level
handler and the run returns `False` — although the output file has already
been fully written and closed by then. -/
def clean_alibaba_csv (cfg : CleanConfig) (env : Int → String)
    (persistOk : Bool) (fieldnames : Option (List String))
    (rows : List Row) : CleanResult :=
  match fieldnames with
  | none => { error := some RunError.noHeader }
  | some fns =>
    let missing := clean_missing_cols cfg fns
    if missing ≠ [] then
      { error := some (RunError.missingColumns missing fns) }
    else
      let final := rows.foldl (cleanStep cfg env)
        { current_product_id := cfg.product_id_start.getD 1094100 }
      if persistOk then
        { error := none, outputOpened := true, written := final.written,
          stats := final.stats,
          persisted_product_id_start := some final.current_product_id,
          success := true }
      else
        { error := none, outputOpened := true, written := final.written,
          stats := final.stats,
          persisted_product_id_start := none,
          success := false }

/-! ## Helper lemmas: association lookup and Python dict assignment -/

theorem alookup_cons {β : Type} (k k' : String) (v : β)
    (l : List (String × β)) :
    alookup k ((k', v) :: l) = if k' = k then some v else alookup k l := rfl

theorem alookup_eq_none_of_not_any {β : Type} (k : String) :
    ∀ l : List (String × β),
      ¬ l.any (fun p => decide (p.1 = k)) = true → alookup k l = none := by
  intro l
  induction l with
  | nil => intro _; rfl
  | cons p rest ih =>
    intro h
    rw [Bool.not_eq_true, List.any_cons, Bool.or_eq_false_iff,
      decide_eq_false_iff_not] at h
    obtain ⟨p₁, p₂⟩ := p
    rw [alookup_cons, if_neg h.1]
    exact ih (by rw [Bool.not_eq_true]; exact h.2)

theorem alookup_append_of_none {β : Type} (k : String)
    (l₁ l₂ : List (String × β)) (h : alookup k l₁ = none) :
    alookup k (l₁ ++ l₂) = alookup k l₂ := by
  induction l₁ with
  | nil => rfl
  | cons p rest ih =>
    obtain ⟨p₁, p₂⟩ := p
    rw [alookup_cons] at h
    by_cases hk : p₁ = k
    · rw [if_pos hk] at h; exact absurd h (by simp)
    · rw [if_neg hk] at h
      rw [List.cons_append, alookup_cons, if_neg hk]
      exact ih h

theorem alookup_append_of_some {β : Type} (k : String)
    (l₁ l₂ : List (String × β)) (w : β) (h : alookup k l₁ = some w) :
    alookup k (l₁ ++ l₂) = some w := by
  induction l₁ with
  | nil => simp [alookup] at h
  | cons p rest ih =>
    obtain ⟨p₁, p₂⟩ := p
    rw [alookup_cons] at h
    by_cases hk : p₁ = k
    · rw [if_pos hk] at h
      rw [List.cons_append, alookup_cons, if_pos hk]
      exact h
    · rw [if_neg hk] at h
      rw [List.cons_append, alookup_cons, if_neg hk]
      exact ih h

theorem alookup_map_replace {β : Type} (k : String) (v : β) :
    ∀ l : List (String × β), l.any (fun p => decide (p.1 = k)) = true →
      alookup k (l.map (fun p => if p.1 = k then (k, v) else p)) = some v := by
  intro l
  induction l with
  | nil => intro h; simp at h
  | cons p rest ih =>
    intro h
    obtain ⟨p₁, p₂⟩ := p
    by_cases hk : p₁ = k
    · subst hk
      have hfst : ((p₁, p₂) : String × β).1 = p₁ := rfl
      rw [List.map_cons, if_pos hfst, alookup_cons, if_pos rfl]
    · have h' : rest.any (fun p => decide (p.1 = k)) = true := by
        rw [List.any_cons, Bool.or_eq_true] at h
        rcases h with h | h
        · exact absurd (of_decide_eq_true h) hk
        · exact h
      simp only [List.map_cons, if_neg hk, alookup_cons, if_neg hk]
      exact ih h'

theorem alookup_map_replace_ne {β : Type} (k k' : String) (v : β)
    (hne : k' ≠ k) :
    ∀ l : List (String × β),
      alookup k' (l.map (fun p => if p.1 = k then (k, v) else p)) =
        alookup k' l := by
  intro l
  induction l with
  | nil => rfl
  | cons p rest ih =>
    obtain ⟨p₁, p₂⟩ := p
    by_cases hk : p₁ = k
    · simp only [List.map_cons, if_pos hk, alookup_cons]
      rw [if_neg (fun hh : k = k' => hne hh.symm),
        if_neg (fun hh : p₁ = k' => hne ((hk.symm.trans hh).symm))]
      exact ih
    · simp only [List.map_cons, if_neg hk, alookup_cons]
      by_cases hk' : p₁ = k'
      · rw [if_pos hk', if_pos hk']
      · rw [if_neg hk', if_neg hk']
        exact ih

/-- After `d[k] = v`, looking up `k` yields `v`. -/
theorem dictSet_alookup_self {β : Type} (rec : List (String × β))
    (k : String) (v : β) : alookup k (dictSet rec k v) = some v := by
  unfold dictSet
  by_cases h : rec.any (fun p => decide (p.1 = k)) = true
  · rw [if_pos h]; exact alookup_map_replace k v rec h
  · rw [if_neg h]
    rw [alookup_append_of_none k rec _ (alookup_eq_none_of_not_any k rec h)]
    simp [alookup]

/-- `d[k] = v` does not change the value of any other key. -/
theorem dictSet_alookup_ne {β : Type} (rec : List (String × β))
    (k k' : String) (v : β) (hne : k' ≠ k) :
    alookup k' (dictSet rec k v) = alookup k' rec := by
  unfold dictSet
  by_cases h : rec.any (fun p => decide (p.1 = k)) = true
  · rw [if_pos h]; exact alookup_map_replace_ne k k' v hne rec
  · rw [if_neg h]
    rcases hcase : alookup k' rec with _ | w
    · rw [alookup_append_of_none k' rec _ hcase, alookup_cons,
        if_neg (fun hh : k = k' => hne hh.symm)]
      rfl
    · rw [alookup_append_of_some k' rec _ w hcase]

/-! ## Helper lemmas: the column-mapping loop -/

/-- The blank short-circuit fires exactly when removal is on and some
mapped source field trims to empty. -/
theorem mapSourceColumns_eq_none_iff
    (source_mapping : List (String × String)) (row : Row)
    (remove_blank : Bool) :
    mapSourceColumns source_mapping row remove_blank = none ↔
      remove_blank = true ∧
        ∃ p ∈ source_mapping, pyStrip (rowGet row p.2) = "" := by
  induction source_mapping with
  | nil => simp [mapSourceColumns]
  | cons p rest ih =>
    obtain ⟨out_col, src_col⟩ := p
    by_cases hb : pyStrip (rowGet row src_col) = "" ∧ remove_blank = true
    · rw [mapSourceColumns, if_pos (by simpa using hb)]
      simp only [true_iff]
      exact ⟨hb.2, ⟨(out_col, src_col), List.mem_cons_self _ _, hb.1⟩⟩
    · rw [mapSourceColumns, if_neg (by simpa using hb)]
      rw [Classical.not_and_iff_or_not_not] at hb
      constructor
      · intro h
        have h' : mapSourceColumns rest row remove_blank = none := by
          rcases hmap : mapSourceColumns rest row remove_blank with _ | m
          · rfl
          · rw [hmap] at h; simp [Option.map] at h
        obtain ⟨h1, q, hq, hq2⟩ := ih.mp h'
        exact ⟨h1, q, List.mem_cons_of_mem _ hq, hq2⟩
      · rintro ⟨h1, q, hq, hq2⟩
        rcases List.mem_cons.mp hq with hq | hq
        · subst hq
          rcases hb with hb | hb
          · exact absurd hq2 hb
          · exact absurd h1 hb
        · have h' := ih.mpr ⟨h1, q, hq, hq2⟩
          rw [h']
          rfl

/-- With blank removal off, the mapping loop never drops a row. -/
theorem mapSourceColumns_isSome_of_not_remove
    (source_mapping : List (String × String)) (row : Row) :
    (mapSourceColumns source_mapping row false).isSome = true := by
  rcases h : mapSourceColumns source_mapping row false with _ | m
  · rcases (mapSourceColumns_eq_none_iff _ _ _).mp h with ⟨h1, _⟩
    cases h1
  · rfl

/-- On the kept path, each mapped output field holds exactly the trimmed
source value.  Mappings coming from a JSON object have pairwise distinct
output names, hence the `Nodup` hypothesis. -/
theorem mapSourceColumns_alookup
    (source_mapping : List (String × String)) (row : Row)
    (remove_blank : Bool) (mapped : List (String × String))
    (hnd : (source_mapping.map (fun p => p.1)).Nodup)
    (h : mapSourceColumns source_mapping row remove_blank = some mapped) :
    ∀ p ∈ source_mapping,
      alookup p.1 mapped = some (pyStrip (rowGet row p.2)) := by
  induction source_mapping generalizing mapped with
  | nil => intro p hp; cases hp
  | cons q rest ih =>
    obtain ⟨out_col, src_col⟩ := q
    intro p hp
    rw [mapSourceColumns] at h
    by_cases hb : pyStrip (rowGet row src_col) = "" ∧ remove_blank = true
    · rw [if_pos (by simpa using hb)] at h; cases h
    · rw [if_neg (by simpa using hb)] at h
      rcases hmap : mapSourceColumns rest row remove_blank with _ | m
      · rw [hmap] at h; cases h
      · rw [hmap] at h
        simp only [Option.map, Option.some.injEq] at h
        subst h
        rw [List.map_cons, List.nodup_cons] at hnd
        rcases List.mem_cons.mp hp with hq | hq
        · subst hq
          rw [alookup_cons, if_pos rfl]
        · have hne : p.1 ≠ out_col := by
            intro hh
            exact hnd.1 (hh ▸ List.mem_map_of_mem (fun r => r.1) hq)
          rw [alookup_cons, if_neg (fun hh => hne hh.symm)]
          exact ih m hnd.2 hmap p hq

/-! ## Helper lemmas: the generated-columns loop -/

/-- A `sequential` spec's value depends only on `start` and `row_number`. -/
theorem generate_value_sequential (column_config : ColConfig)
    (row_number : Nat) (previous_value : Option PyVal) (envStr : String)
    (h : column_config.type = some "sequential") :
    generate_value column_config row_number previous_value envStr =
      PyVal.intV (column_config.start.getD 1 + (row_number : Int)) := by
  rw [generate_value]
  have : column_config.type.getD "static" = "sequential" := by rw [h]; rfl
  rw [this]
  rfl

/-- The generator loop does not touch output fields that are not generated
column names. -/
theorem addGenerated_alookup_preserve (env : String → String)
    (generated_columns : List (String × ColConfig)) (row_number : Nat)
    (k : String)
    (hk : k ∉ generated_columns.map (fun p => p.1)) :
    ∀ (generated_values output_row : Rec),
      alookup k (addGenerated env generated_columns row_number
        generated_values output_row).1 = alookup k output_row := by
  induction generated_columns with
  | nil => intro gv out; rfl
  | cons q rest ih =>
    intro gv out
    obtain ⟨col_name, col_config⟩ := q
    rw [List.map_cons] at hk
    have hk1 : k ≠ col_name := fun hh => hk (hh ▸ List.mem_cons_self _ _)
    have hk2 : k ∉ rest.map (fun p => p.1) :=
      fun hh => hk (List.mem_cons_of_mem _ hh)
    rw [addGenerated]
    rw [ih hk2]
    exact dictSet_alookup_ne out col_name k _ hk1

/-- After the generator loop, the value of a generated column whose last
spec in configured order is `sequential` is `start + row_number`,
independently of the oracle, the memo and the mapped record. -/
theorem addGenerated_alookup_sequential (env : String → String)
    (row_number : Nat) (name : String) (cc : ColConfig)
    (l₁ l₂ : List (String × ColConfig))
    (hseq : cc.type = some "sequential")
    (hlast : name ∉ l₂.map (fun p => p.1)) :
    ∀ (generated_values output_row : Rec),
      alookup name (addGenerated env (l₁ ++ (name, cc) :: l₂) row_number
        generated_values output_row).1 =
        some (PyVal.intV (cc.start.getD 1 + (row_number : Int))) := by
  induction l₁ with
  | nil =>
    intro gv out
    rw [List.nil_append, addGenerated]
    rw [addGenerated_alookup_preserve env l₂ row_number name hlast]
    rw [generate_value_sequential _ _ _ _ hseq]
    exact dictSet_alookup_self out name _
  | cons q rest ih =>
    intro gv out
    obtain ⟨col_name, col_config⟩ := q
    rw [List.cons_append, addGenerated]
    exact ih _ _

/-! ## Helper lemmas: the row loop of process_csv -/

/-- Invariants are preserved through `List.foldl`. -/
theorem foldl_pres {σ α : Type} (P : σ → Prop) (f : σ → α → σ)
    (hf : ∀ s a, P s → P (f s a)) :
    ∀ (l : List α) (s : σ), P s → P (l.foldl f s) := by
  intro l
  induction l with
  | nil => intro s hs; exact hs
  | cons a t ih =>
    intro s hs
    exact ih (f s a) (hf s a hs)

/-- Field-by-field description of the keep path. -/
theorem keepRow_fields (cfg : ProcConfig) (env : String → String)
    (st : LoopState) (output_row : Rec) :
    (keepRow cfg env st output_row).stats.total_rows = st.stats.total_rows ∧
    (keepRow cfg env st output_row).stats.kept_rows = st.stats.kept_rows + 1 ∧
    (keepRow cfg env st output_row).stats.blank_rows = st.stats.blank_rows ∧
    (keepRow cfg env st output_row).stats.duplicate_rows =
      st.stats.duplicate_rows ∧
    (keepRow cfg env st output_row).row_number = st.row_number + 1 ∧
    (keepRow cfg env st output_row).written = st.written ++
      [(addGenerated env cfg.generated_columns st.row_number
        st.generated_values output_row).1] :=
  ⟨rfl, rfl, rfl, rfl, rfl, rfl⟩

/-- Exhaustive case analysis of one iteration of the row loop: a row is
counted blank, counted duplicate, or kept — and in each case the new state
is given explicitly. -/
theorem processRow_cases (cfg : ProcConfig) (env : Nat → String → String)
    (st : LoopState) (row : Row) :
    (mapSourceColumns cfg.source_mapping row cfg.remove_blank_rows = none ∧
      processRow cfg env st row =
        { st with stats := { st.stats with
            total_rows := st.stats.total_rows + 1,
            blank_rows := st.stats.blank_rows + 1 } })
  ∨ (∃ mapped dup_value,
      mapSourceColumns cfg.source_mapping row cfg.remove_blank_rows =
        some mapped ∧
      cfg.remove_duplicates = true ∧
      alookup cfg.duplicate_check_column mapped = some dup_value ∧
      dup_value ∈ st.seen_values ∧
      processRow cfg env st row =
        { st with stats := { st.stats with
            total_rows := st.stats.total_rows + 1,
            duplicate_rows := st.stats.duplicate_rows + 1 } })
  ∨ (∃ mapped seen',
      mapSourceColumns cfg.source_mapping row cfg.remove_blank_rows =
        some mapped ∧
      processRow cfg env st row =
        keepRow cfg (env st.row_number)
          { st with
            seen_values := seen'
            stats := { st.stats with
              total_rows := st.stats.total_rows + 1 } }
          (mapped.map (fun q => (q.1, PyVal.strV q.2)))) := by
  rcases hm : mapSourceColumns cfg.source_mapping row cfg.remove_blank_rows
    with _ | mapped
  · left
    exact ⟨rfl, by simp only [processRow, hm]⟩
  · right
    by_cases hdup : cfg.remove_duplicates = true
    · rcases ha : alookup cfg.duplicate_check_column mapped with _ | dup_value
      · right
        exact ⟨mapped, st.seen_values, rfl,
          by simp only [processRow, hm, hdup, if_true, ha]⟩
      · by_cases hmem : dup_value ∈ st.seen_values
        · left
          exact ⟨mapped, dup_value, rfl, hdup, ha, hmem,
            by simp only [processRow, hm, hdup, if_true, ha, hmem, if_pos]⟩
        · right
          refine ⟨mapped, st.seen_values.insert dup_value, rfl, ?_⟩
          simp only [processRow, hm, hdup, if_true, ha]
          rw [if_neg hmem]
    · right
      refine ⟨mapped, st.seen_values, rfl, ?_⟩
      simp only [processRow, hm]
      rw [if_neg hdup]

/-! ## Helper lemmas: the row loop of clean_alibaba_csv -/

/-- Exhaustive case analysis of one iteration of the Alibaba row loop. -/
theorem cleanStep_cases (cfg : CleanConfig) (env : Int → String)
    (st : CleanState) (row : Row) :
    (cleanStep cfg env st row).stats.total_rows = st.stats.total_rows + 1 ∧
    (((cleanStep cfg env st row).stats.kept_rows = st.stats.kept_rows + 1 ∧
      (cleanStep cfg env st row).stats.deleted_rows =
        st.stats.deleted_rows ∧
      (cleanStep cfg env st row).current_product_id =
        st.current_product_id + 1 ∧
      ∃ rec, (cleanStep cfg env st row).written = st.written ++ [rec])
    ∨ ((cleanStep cfg env st row).stats.kept_rows = st.stats.kept_rows ∧
      (cleanStep cfg env st row).stats.deleted_rows =
        st.stats.deleted_rows + 1 ∧
      (cleanStep cfg env st row).current_product_id =
        st.current_product_id ∧
      (cleanStep cfg env st row).written = st.written)) := by
  by_cases hk : (extractColumns (COLUMNS_TO_KEEP cfg) row).1 = false ∨
    cfg.remove_blank_rows.getD true = false
  · constructor
    · simp only [cleanStep]
      rw [if_pos hk]
      by_cases hb : (extractColumns (COLUMNS_TO_KEEP cfg) row).1 <;>
        simp [hb]
    · left
      simp only [cleanStep]
      rw [if_pos hk]
      refine ⟨?_, ?_, rfl, ?_⟩
      · by_cases hb : (extractColumns (COLUMNS_TO_KEEP cfg) row).1 <;>
          simp [hb]
      · by_cases hb : (extractColumns (COLUMNS_TO_KEEP cfg) row).1 <;>
          simp [hb]
      · exact ⟨_, rfl⟩
  · constructor
    · simp only [cleanStep]
      rw [if_neg hk]
      have hb : (extractColumns (COLUMNS_TO_KEEP cfg) row).1 = true := by
        rcases Bool.eq_false_or_eq_true
          (extractColumns (COLUMNS_TO_KEEP cfg) row).1 with h | h
        · exact h
        · exact absurd (Or.inl h) hk
      simp [hb]
    · right
      simp only [cleanStep]
      rw [if_neg hk]
      have hb : (extractColumns (COLUMNS_TO_KEEP cfg) row).1 = true := by
        rcases Bool.eq_false_or_eq_true
          (extractColumns (COLUMNS_TO_KEEP cfg) row).1 with h | h
        · exact h
        · exact absurd (Or.inl h) hk
      refine ⟨?_, ?_, rfl, rfl⟩ <;> simp [hb]

/-- The `has_blank` flag of the extraction loop is set exactly when some
kept source column trims to empty. -/
theorem extractColumns_fst_iff (cols : List (String × String)) (row : Row) :
    (extractColumns cols row).1 = true ↔
      ∃ p ∈ cols, pyStrip (rowGet row p.1) = "" := by
  induction cols with
  | nil => simp [extractColumns]
  | cons p rest ih =>
    obtain ⟨old_col, new_col⟩ := p
    by_cases hb : pyStrip (rowGet row old_col) = ""
    · rw [extractColumns, if_pos hb]
      simp only [true_iff]
      exact ⟨(old_col, new_col), List.mem_cons_self _ _, hb⟩
    · rw [extractColumns, if_neg hb]
      dsimp only
      rw [ih]
      constructor
      · rintro ⟨q, hq, hq2⟩
        exact ⟨q, List.mem_cons_of_mem _ hq, hq2⟩
      · rintro ⟨q, hq, hq2⟩
        rcases List.mem_cons.mp hq with hq | hq
        · subst hq; exact absurd hq2 hb
        · exact ⟨q, hq, hq2⟩

/-- When no kept column is blank, each extracted field holds exactly the
trimmed source value (output names assumed distinct, which holds for the
fixed `COLUMNS_TO_KEEP` output names). -/
theorem extractColumns_alookup (cols : List (String × String)) (row : Row)
    (hnd : (cols.map (fun p => p.2)).Nodup)
    (hnb : (extractColumns cols row).1 = false) :
    ∀ p ∈ cols,
      alookup p.2 (extractColumns cols row).2 =
        some (pyStrip (rowGet row p.1)) := by
  induction cols with
  | nil => intro p hp; cases hp
  | cons q rest ih =>
    obtain ⟨old_col, new_col⟩ := q
    intro p hp
    by_cases hb : pyStrip (rowGet row old_col) = ""
    · rw [extractColumns, if_pos hb] at hnb
      cases hnb
    · rw [extractColumns, if_neg hb] at hnb ⊢
      dsimp only at hnb ⊢
      rw [List.map_cons, List.nodup_cons] at hnd
      rcases List.mem_cons.mp hp with hq | hq
      · subst hq
        rw [alookup_cons, if_pos rfl]
      · have hne : p.2 ≠ new_col := by
          intro hh
          exact hnd.1 (hh ▸ List.mem_map_of_mem (fun r => r.2) hq)
        rw [alookup_cons, if_neg (fun hh => hne hh.symm)]
        exact ih hnd.2 hnb p hq

/-! ## Claim theorems -/

/-- **C1.** After every run, the accumulated statistics partition the input
rows: in `process_csv`, `total_rows = kept_rows + blank_rows +
duplicate_rows` (each row increments exactly one of the three), for every
configuration — in particular for every setting of the filter flags,
including `remove_blank_rows = false`.  In `clean_alibaba_csv` the
rows-dropped-for-blankness counter is `deleted_rows` (there is no
duplicate filter), and `total_rows = kept_rows + deleted_rows` likewise
holds for every configuration. -/
theorem c1_stats_partition :
    (∀ (cfg : ProcConfig) (env : Nat → String → String) (persistOk : Bool)
        (fieldnames : Option (List String)) (rows : List Row),
      (process_csv cfg env persistOk fieldnames rows).stats.total_rows =
        (process_csv cfg env persistOk fieldnames rows).stats.kept_rows +
        (process_csv cfg env persistOk fieldnames rows).stats.blank_rows +
        (process_csv cfg env persistOk fieldnames rows).stats.duplicate_rows)
  ∧ (∀ (cfg : CleanConfig) (env : Int → String) (persistOk : Bool)
        (fieldnames : Option (List String)) (rows : List Row),
      (clean_alibaba_csv cfg env persistOk fieldnames rows).stats.total_rows =
        (clean_alibaba_csv cfg env persistOk fieldnames rows).stats.kept_rows +
        (clean_alibaba_csv cfg env persistOk fieldnames rows).stats.deleted_rows) := by
  constructor
  · intro cfg env persistOk fieldnames rows
    have hstep : ∀ (st : LoopState) (row : Row),
        st.stats.total_rows = st.stats.kept_rows + st.stats.blank_rows +
          st.stats.duplicate_rows →
        (processRow cfg env st row).stats.total_rows =
          (processRow cfg env st row).stats.kept_rows +
          (processRow cfg env st row).stats.blank_rows +
          (processRow cfg env st row).stats.duplicate_rows := by
      intro st row hP
      rcases processRow_cases cfg env st row with
        ⟨_, heq⟩ | ⟨m, v, _, _, _, _, heq⟩ | ⟨m, s', _, heq⟩
      · rw [heq]; dsimp only; omega
      · rw [heq]; dsimp only; omega
      · rw [heq]
        obtain ⟨h1, h2, h3, h4, _, _⟩ := keepRow_fields cfg
          (env st.row_number)
          { st with
            seen_values := s'
            stats := { st.stats with
              total_rows := st.stats.total_rows + 1 } }
          (m.map (fun q => (q.1, PyVal.strV q.2)))
        rw [h1, h2, h3, h4]
        dsimp only
        omega
    have hinv := foldl_pres
      (fun st : LoopState => st.stats.total_rows =
        st.stats.kept_rows + st.stats.blank_rows + st.stats.duplicate_rows)
      (processRow cfg env) hstep rows {} rfl
    rcases fieldnames with _ | fns
    · rfl
    · by_cases hmiss : missing_cols cfg fns ≠ []
      · simp only [process_csv]
        rw [if_pos hmiss]
        rfl
      · simp only [process_csv]
        rw [if_neg hmiss]
        exact hinv
  · intro cfg env persistOk fieldnames rows
    have hstep : ∀ (st : CleanState) (row : Row),
        st.stats.total_rows = st.stats.kept_rows + st.stats.deleted_rows →
        (cleanStep cfg env st row).stats.total_rows =
          (cleanStep cfg env st row).stats.kept_rows +
          (cleanStep cfg env st row).stats.deleted_rows := by
      intro st row hP
      obtain ⟨ht, hcase⟩ := cleanStep_cases cfg env st row
      rcases hcase with ⟨h1, h2, _, _⟩ | ⟨h1, h2, _, _⟩ <;> omega
    have hinv := foldl_pres
      (fun st : CleanState => st.stats.total_rows =
        st.stats.kept_rows + st.stats.deleted_rows)
      (cleanStep cfg env) hstep rows
      { current_product_id := cfg.product_id_start.getD 1094100 } rfl
    rcases fieldnames with _ | fns
    · rfl
    · by_cases hmiss : clean_missing_cols cfg fns ≠ []
      · simp only [clean_alibaba_csv]
        rw [if_pos hmiss]
        rfl
      · simp only [clean_alibaba_csv]
        rw [if_neg hmiss]
        rcases persistOk with _ | _
        · exact hinv
        · exact hinv

/-- **C2.** In a `process_csv` run, the value a `Sequential` generator spec
produces on the `k`-th kept row (`k` counted from 0) is exactly
`start + k`: the code passes `row_number` — which counts kept rows only —
to `generate_value`, so values across kept rows are `start, start+1, …`,
independent of the oracle, of the memoized previous value, and of how many
rows were dropped in between.  (`(name, cc)` is the last spec of that name
in configured order, as a JSON-object configuration guarantees.) -/
theorem c2_sequential_values (cfg : ProcConfig)
    (env : Nat → String → String) (persistOk : Bool)
    (fieldnames : Option (List String)) (rows : List Row)
    (name : String) (cc : ColConfig) (l₁ l₂ : List (String × ColConfig))
    (hg : cfg.generated_columns = l₁ ++ (name, cc) :: l₂)
    (hlast : name ∉ l₂.map (fun p => p.1))
    (hseq : cc.type = some "sequential")
    (k : Nat) (rec : Rec)
    (hrec : (process_csv cfg env persistOk fieldnames rows).written[k]? =
      some rec) :
    alookup name rec = some (PyVal.intV (cc.start.getD 1 + (k : Int))) := by
  rcases fieldnames with _ | fns
  · simp only [process_csv] at hrec
    simp at hrec
  · by_cases hmiss : missing_cols cfg fns ≠ []
    · simp only [process_csv] at hrec
      rw [if_pos hmiss] at hrec
      simp at hrec
    · simp only [process_csv] at hrec
      rw [if_neg hmiss] at hrec
      have hinv := foldl_pres
        (fun st : LoopState => st.row_number = st.written.length ∧
          ∀ (j : Nat) (r : Rec), st.written[j]? = some r →
            alookup name r =
              some (PyVal.intV (cc.start.getD 1 + (j : Int))))
        (processRow cfg env) ?_ rows {} ⟨rfl, by intro j r h; simp at h⟩
      · exact hinv.2 k rec hrec
      · intro st row hP
        obtain ⟨hrn, hlook⟩ := hP
        rcases processRow_cases cfg env st row with
          ⟨_, heq⟩ | ⟨m, v, _, _, _, _, heq⟩ | ⟨m, s', _, heq⟩
        · rw [heq]; exact ⟨hrn, hlook⟩
        · rw [heq]; exact ⟨hrn, hlook⟩
        · rw [heq]
          obtain ⟨_, _, _, _, h5, h6⟩ := keepRow_fields cfg
            (env st.row_number)
            { st with
              seen_values := s'
              stats := { st.stats with
                total_rows := st.stats.total_rows + 1 } }
            (m.map (fun q => (q.1, PyVal.strV q.2)))
          rw [h5, h6]
          dsimp only
          constructor
          · simp [hrn]
          · intro j r h
            by_cases hj : j < st.written.length
            · rw [List.getElem?_append_left hj] at h
              exact hlook j r h
            · have hjlen : j < (st.written ++
                  [(addGenerated (env st.row_number) cfg.generated_columns
                    st.row_number st.generated_values
                    (m.map (fun q => (q.1, PyVal.strV q.2)))).1]).length :=
                (List.getElem?_eq_some.mp h).1
              rw [List.length_append, List.length_singleton] at hjlen
              have hjeq : j = st.written.length := by omega
              subst hjeq
              rw [List.getElem?_concat_length] at h
              cases h
              rw [hg, addGenerated_alookup_sequential (env st.row_number)
                st.row_number name cc l₁ l₂ hseq hlast st.generated_values
                (m.map (fun q => (q.1, PyVal.strV q.2)))]
              rw [hrn]

/-- Witness for C2: a concrete run with `Sequential{start:100}` and two
kept rows; the second kept row (k = 1) carries `101 = 100 + 1`. -/
theorem c2_sequential_values_witness :
    (process_csv
      { source_mapping := [("t", "T")],
        generated_columns :=
          [("id", { type := some "sequential", start := some 100 })] }
      (fun _ _ => "") true (some ["T"])
      [[("T", "a")], [("T", "b")]]).written[1]? =
        some [("t", PyVal.strV "b"), ("id", PyVal.intV 101)] ∧
    alookup "id" [("t", PyVal.strV "b"), ("id", PyVal.intV 101)] =
      some (PyVal.intV ((100 : Int) + ((1 : Nat) : Int))) := by
  constructor
  · rfl
  · exact c2_sequential_values
      { source_mapping := [("t", "T")],
        generated_columns :=
          [("id", { type := some "sequential", start := some 100 })] }
      (fun _ _ => "") true (some ["T"]) [[("T", "a")], [("T", "b")]]
      "id" { type := some "sequential", start := some 100 } [] []
      rfl (by simp) rfl 1
      [("t", PyVal.strV "b"), ("id", PyVal.intV 101)] rfl

/-- Throughout the row loop, `row_number` (which the source passes to
`update_sequential_starts` as `rows_processed`) equals `kept_rows`: both
are incremented exactly on the keep path. -/
theorem processRow_row_number_eq_kept (cfg : ProcConfig)
    (env : Nat → String → String) (st : LoopState) (row : Row)
    (h : st.row_number = st.stats.kept_rows) :
    (processRow cfg env st row).row_number =
      (processRow cfg env st row).stats.kept_rows := by
  rcases processRow_cases cfg env st row with
    ⟨_, heq⟩ | ⟨m, v, _, _, _, _, heq⟩ | ⟨m, s', _, heq⟩
  · rw [heq]; exact h
  · rw [heq]; exact h
  · rw [heq]
    obtain ⟨_, h2, _, _, h5, _⟩ := keepRow_fields cfg (env st.row_number)
      { st with
        seen_values := s'
        stats := { st.stats with
          total_rows := st.stats.total_rows + 1 } }
      (m.map (fun q => (q.1, PyVal.strV q.2)))
    rw [h2, h5]
    dsimp only
    rw [h]

/-- **C3.** After a fully successful `process_csv` run with
`update_product_id_start` enabled, every `sequential` generator spec in the
configuration document ends up with `start = old start + kept_rows` — the
source calls `update_sequential_starts(config, row_number)` only after the
row loop has finished, and `row_number` equals the run's kept-row count.
`gcfgAfter` is exactly the `generated_columns` section the subsequent
`config.json` dump persists.  In `clean_alibaba_csv` the
persisted `product_id_start` likewise becomes `old start + kept_rows`. -/
theorem c3_sequential_start_advance :
    (∀ (cfg : ProcConfig) (env : Nat → String → String) (persistOk : Bool)
        (fieldnames : Option (List String)) (rows : List Row)
        (i : Nat) (name : String) (cc : ColConfig),
      (process_csv cfg env persistOk fieldnames rows).success = true →
      cfg.update_product_id_start = true →
      cfg.generated_columns[i]? = some (name, cc) →
      cc.type = some "sequential" →
      (process_csv cfg env persistOk fieldnames rows).gcfgAfter[i]? =
        some (name, { cc with start := some (cc.start.getD 1 +
          ((process_csv cfg env persistOk fieldnames
            rows).stats.kept_rows : Int)) }))
  ∧ (∀ (cfg : CleanConfig) (env : Int → String)
        (fieldnames : Option (List String)) (rows : List Row),
      (clean_alibaba_csv cfg env true fieldnames rows).success = true →
      (clean_alibaba_csv cfg env true fieldnames
          rows).persisted_product_id_start =
        some (cfg.product_id_start.getD 1094100 +
          ((clean_alibaba_csv cfg env true fieldnames
            rows).stats.kept_rows : Int))) := by
  constructor
  · intro cfg env persistOk fieldnames rows i name cc hsucc hflag hget htype
    rcases fieldnames with _ | fns
    · simp [process_csv] at hsucc
    · by_cases hmiss : missing_cols cfg fns ≠ []
      · simp only [process_csv] at hsucc
        rw [if_pos hmiss] at hsucc
        simp at hsucc
      · simp only [process_csv]
        rw [if_neg hmiss]
        dsimp only
        rw [if_pos hflag]
        have hrnk := foldl_pres
          (fun st : LoopState => st.row_number = st.stats.kept_rows)
          (processRow cfg env)
          (fun st row h => processRow_row_number_eq_kept cfg env st row h)
          rows {} rfl
        rw [hrnk]
        simp only [update_sequential_starts, List.getElem?_map, hget,
          Option.map_some']
        rw [if_pos htype]
  · intro cfg env fieldnames rows hsucc
    rcases fieldnames with _ | fns
    · simp [clean_alibaba_csv] at hsucc
    · by_cases hmiss : clean_missing_cols cfg fns ≠ []
      · simp only [clean_alibaba_csv] at hsucc
        rw [if_pos hmiss] at hsucc
        simp at hsucc
      · simp only [clean_alibaba_csv]
        rw [if_neg hmiss]
        simp only [if_true]
        have hinv := foldl_pres
          (fun st : CleanState => st.current_product_id =
            cfg.product_id_start.getD 1094100 + (st.stats.kept_rows : Int))
          (cleanStep cfg env) ?_ rows
          { current_product_id := cfg.product_id_start.getD 1094100 }
          (by dsimp only; omega)
        · rw [hinv]
        · intro st row h
          obtain ⟨_, hcase⟩ := cleanStep_cases cfg env st row
          rcases hcase with ⟨h1, _, h3, _⟩ | ⟨h1, _, h3, _⟩ <;>
            rw [h1, h3, h] <;> push_cast <;> ring

/-- Witness for C3: `Sequential{start:100}`, one kept row — the spec is
persisted with `start = 101`; and a default Alibaba run with one kept row
persists `product_id_start = 1094101`. -/
theorem c3_sequential_start_advance_witness :
    ((process_csv
        { generated_columns :=
            [("id", { type := some "sequential", start := some 100 })],
          update_product_id_start := true }
        (fun _ _ => "") true (some []) [[]]).success = true ∧
      (process_csv
        { generated_columns :=
            [("id", { type := some "sequential", start := some 100 })],
          update_product_id_start := true }
        (fun _ _ => "") true (some []) [[]]).gcfgAfter[0]? =
        some ("id", { ({ type := some "sequential", start := some 100 } :
            ColConfig) with
          start := some (((some (100 : Int)).getD 1) +
            (((process_csv
              { generated_columns :=
                  [("id", { type := some "sequential", start := some 100 })],
                update_product_id_start := true }
              (fun _ _ => "") true (some []) [[]]).stats.kept_rows : Nat) :
                Int)) }))
  ∧ ((clean_alibaba_csv {} (fun _ => "") true
        (some ["searchx-product-e-slider__link href",
          "searchx-product-e-slider__img src",
          "searchx-product-price-price-main",
          "searchx-product-e-title"])
        [[("searchx-product-e-slider__link href", "u"),
          ("searchx-product-e-slider__img src", "i"),
          ("searchx-product-price-price-main", "p"),
          ("searchx-product-e-title", "t")]]).success = true ∧
      (clean_alibaba_csv {} (fun _ => "") true
        (some ["searchx-product-e-slider__link href",
          "searchx-product-e-slider__img src",
          "searchx-product-price-price-main",
          "searchx-product-e-title"])
        [[("searchx-product-e-slider__link href", "u"),
          ("searchx-product-e-slider__img src", "i"),
          ("searchx-product-price-price-main", "p"),
          ("searchx-product-e-title", "t")]]).persisted_product_id_start =
        some ((((none : Option Int)).getD 1094100 +
          (((clean_alibaba_csv {} (fun _ => "") true
            (some ["searchx-product-e-slider__link href",
              "searchx-product-e-slider__img src",
              "searchx-product-price-price-main",
              "searchx-product-e-title"])
            [[("searchx-product-e-slider__link href", "u"),
              ("searchx-product-e-slider__img src", "i"),
              ("searchx-product-price-price-main", "p"),
              ("searchx-product-e-title", "t")]]).stats.kept_rows : Nat) :
                Int)))) := by
  constructor
  · exact ⟨rfl, c3_sequential_start_advance.1
      { generated_columns :=
          [("id", { type := some "sequential", start := some 100 })],
        update_product_id_start := true }
      (fun _ _ => "") true (some []) [[]] 0 "id"
      { type := some "sequential", start := some 100 } rfl rfl rfl rfl⟩
  · exact ⟨rfl, c3_sequential_start_advance.2 {} (fun _ => "")
      (some ["searchx-product-e-slider__link href",
        "searchx-product-e-slider__img src",
        "searchx-product-price-price-main",
        "searchx-product-e-title"])
      [[("searchx-product-e-slider__link href", "u"),
        ("searchx-product-e-slider__img src", "i"),
        ("searchx-product-price-price-main", "p"),
        ("searchx-product-e-title", "t")]] rfl⟩

/-- **C4.** If any source field name referenced by the column mapping is
absent from the input header, both runs fail with a missing-columns error
carrying the missing set and the available header, and the whole result is
the error result: the output sink is never opened (`outputOpened = false`),
nothing is written, and the run is unsuccessful — the validation happens
before the output file is created or truncated. -/
theorem c4_missing_columns_abort :
    (∀ (cfg : ProcConfig) (env : Nat → String → String) (persistOk : Bool)
        (fns : List String) (rows : List Row),
      missing_cols cfg fns ≠ [] →
      process_csv cfg env persistOk (some fns) rows =
        { error := some (RunError.missingColumns (missing_cols cfg fns) fns) })
  ∧ (∀ (cfg : CleanConfig) (env : Int → String) (persistOk : Bool)
        (fns : List String) (rows : List Row),
      clean_missing_cols cfg fns ≠ [] →
      clean_alibaba_csv cfg env persistOk (some fns) rows =
        { error := some (RunError.missingColumns
            (clean_missing_cols cfg fns) fns) }) := by
  constructor
  · intro cfg env persistOk fns rows hmiss
    simp only [process_csv]
    rw [if_pos hmiss]
  · intro cfg env persistOk fns rows hmiss
    simp only [clean_alibaba_csv]
    rw [if_pos hmiss]

/-- Witness for C4: a mapping that needs source column `"T"` while the
header only has `"X"` — the run aborts with the error result and no
output. -/
theorem c4_missing_columns_abort_witness :
    (missing_cols { source_mapping := [("t", "T")] } ["X"] ≠ [] ∧
      process_csv { source_mapping := [("t", "T")] } (fun _ _ => "") true
        (some ["X"]) [[("X", "1")]] =
        { error := some (RunError.missingColumns
            (missing_cols { source_mapping := [("t", "T")] } ["X"]) ["X"]) })
  ∧ (clean_missing_cols { source_title := some "TT" } ["price"] ≠ [] ∧
      clean_alibaba_csv { source_title := some "TT" } (fun _ => "") true
        (some ["price"]) [] =
        { error := some (RunError.missingColumns
            (clean_missing_cols { source_title := some "TT" } ["price"])
            ["price"]) }) := by
  constructor
  · exact ⟨by decide,
      c4_missing_columns_abort.1 { source_mapping := [("t", "T")] }
        (fun _ _ => "") true ["X"] [[("X", "1")]] (by decide)⟩
  · exact ⟨by decide,
      c4_missing_columns_abort.2 { source_title := some "TT" }
        (fun _ => "") true ["price"] [] (by decide)⟩

/-- Branch behaviour of the Alibaba row loop, tied to its conditions. -/
theorem cleanStep_branch (cfg : CleanConfig) (env : Int → String)
    (st : CleanState) (row : Row) :
    ((extractColumns (COLUMNS_TO_KEEP cfg) row).1 = false ∨
        cfg.remove_blank_rows.getD true = false →
      (cleanStep cfg env st row).stats.deleted_rows =
        st.stats.deleted_rows ∧
      (cleanStep cfg env st row).stats.kept_rows =
        st.stats.kept_rows + 1) ∧
    ((extractColumns (COLUMNS_TO_KEEP cfg) row).1 = true ∧
        cfg.remove_blank_rows.getD true = true →
      (cleanStep cfg env st row).stats.deleted_rows =
        st.stats.deleted_rows + 1 ∧
      (cleanStep cfg env st row).stats.kept_rows = st.stats.kept_rows) := by
  constructor
  · intro h
    simp only [cleanStep]
    rw [if_pos h]
    constructor <;>
      by_cases hb : (extractColumns (COLUMNS_TO_KEEP cfg) row).1 <;>
        simp [hb]
  · intro h
    simp only [cleanStep]
    rw [if_neg (fun hc => by
      rcases hc with hc | hc
      · rw [h.1] at hc; cases hc
      · rw [h.2] at hc; cases hc)]
    constructor <;> simp [h.1]

/-- **C5.** In `process_csv`, one iteration of the row loop increments
`blank_rows` (by exactly one) iff `remove_blank_rows` is set and at least
one mapped source field is empty or absent after stripping; when
`remove_blank_rows` is false, no row is dropped or counted for blankness —
the blank counter is untouched and the row goes on to be kept or counted
as a duplicate.  In `clean_alibaba_csv` the counter of rows dropped for
blankness is `deleted_rows`, and the same biconditional holds (with its
single `remove_blank_rows` flag defaulting to true); with the flag false
every row is kept. -/
theorem c5_blank_iff :
    (∀ (cfg : ProcConfig) (env : Nat → String → String) (st : LoopState)
        (row : Row),
      ((processRow cfg env st row).stats.blank_rows =
          st.stats.blank_rows + 1 ↔
        (cfg.remove_blank_rows = true ∧
          ∃ p ∈ cfg.source_mapping, pyStrip (rowGet row p.2) = "")) ∧
      (cfg.remove_blank_rows = false →
        (processRow cfg env st row).stats.blank_rows =
          st.stats.blank_rows ∧
        (processRow cfg env st row).stats.kept_rows +
            (processRow cfg env st row).stats.duplicate_rows =
          st.stats.kept_rows + st.stats.duplicate_rows + 1))
  ∧ (∀ (cfg : CleanConfig) (env : Int → String) (st : CleanState)
        (row : Row),
      ((cleanStep cfg env st row).stats.deleted_rows =
          st.stats.deleted_rows + 1 ↔
        (cfg.remove_blank_rows.getD true = true ∧
          ∃ p ∈ COLUMNS_TO_KEEP cfg, pyStrip (rowGet row p.1) = "")) ∧
      (cfg.remove_blank_rows.getD true = false →
        (cleanStep cfg env st row).stats.deleted_rows =
          st.stats.deleted_rows ∧
        (cleanStep cfg env st row).stats.kept_rows =
          st.stats.kept_rows + 1)) := by
  constructor
  · intro cfg env st row
    constructor
    · constructor
      · intro h
        rcases processRow_cases cfg env st row with
          ⟨hm, heq⟩ | ⟨m, v, hm, _, _, _, heq⟩ | ⟨m, s', hm, heq⟩
        · exact (mapSourceColumns_eq_none_iff _ _ _).mp hm
        · rw [heq] at h; dsimp only at h; omega
        · rw [heq] at h
          obtain ⟨_, _, h3, _, _, _⟩ := keepRow_fields cfg
            (env st.row_number)
            { st with
              seen_values := s'
              stats := { st.stats with
                total_rows := st.stats.total_rows + 1 } }
            (m.map (fun q => (q.1, PyVal.strV q.2)))
          rw [h3] at h
          dsimp only at h
          omega
      · intro h
        have hm := (mapSourceColumns_eq_none_iff
          cfg.source_mapping row cfg.remove_blank_rows).mpr h
        rcases processRow_cases cfg env st row with
          ⟨_, heq⟩ | ⟨m, v, hm2, _, _, _, heq⟩ | ⟨m, s', hm2, heq⟩
        · rw [heq]
        · rw [hm] at hm2; cases hm2
        · rw [hm] at hm2; cases hm2
    · intro hrb
      have hnone : ¬ mapSourceColumns cfg.source_mapping row
          cfg.remove_blank_rows = none := by
        intro hm
        have := ((mapSourceColumns_eq_none_iff _ _ _).mp hm).1
        rw [hrb] at this
        cases this
      rcases processRow_cases cfg env st row with
        ⟨hm, heq⟩ | ⟨m, v, hm, _, _, _, heq⟩ | ⟨m, s', hm, heq⟩
      · exact absurd hm hnone
      · rw [heq]; dsimp only; omega
      · rw [heq]
        obtain ⟨_, h2, h3, h4, _, _⟩ := keepRow_fields cfg
          (env st.row_number)
          { st with
            seen_values := s'
            stats := { st.stats with
              total_rows := st.stats.total_rows + 1 } }
          (m.map (fun q => (q.1, PyVal.strV q.2)))
        rw [h2, h3, h4]
        dsimp only
        omega
  · intro cfg env st row
    obtain ⟨hkeep, hdel⟩ := cleanStep_branch cfg env st row
    constructor
    · constructor
      · intro h
        by_cases hc : (extractColumns (COLUMNS_TO_KEEP cfg) row).1 = false ∨
            cfg.remove_blank_rows.getD true = false
        · obtain ⟨h1, _⟩ := hkeep hc
          omega
        · push_neg at hc
          have hb : (extractColumns (COLUMNS_TO_KEEP cfg) row).1 = true := by
            rcases Bool.eq_false_or_eq_true
              (extractColumns (COLUMNS_TO_KEEP cfg) row).1 with hh | hh
            · exact hh
            · exact absurd hh hc.1
          have hr : cfg.remove_blank_rows.getD true = true := by
            rcases Bool.eq_false_or_eq_true
              (cfg.remove_blank_rows.getD true) with hh | hh
            · exact hh
            · exact absurd hh hc.2
          exact ⟨hr, (extractColumns_fst_iff _ row).mp hb⟩
      · intro h
        have hb := (extractColumns_fst_iff (COLUMNS_TO_KEEP cfg) row).mpr h.2
        exact (hdel ⟨hb, h.1⟩).1
    · intro hrb
      exact hkeep (Or.inr hrb)

/-- Witness for C5: concrete rows exercising all four conclusions — a
blank mapped field with removal on increments the blank counter; removal
off leaves it untouched and the row is kept; same for the Alibaba
variant. -/
theorem c5_blank_iff_witness :
    ((processRow { source_mapping := [("t", "T")] } (fun _ _ => "") {}
        [("T", " ")]).stats.blank_rows =
      ({} : LoopState).stats.blank_rows + 1)
  ∧ ((processRow
        { source_mapping := [("t", "T")], remove_blank_rows := false }
        (fun _ _ => "") {} [("T", " ")]).stats.blank_rows =
          ({} : LoopState).stats.blank_rows ∧
      (processRow
        { source_mapping := [("t", "T")], remove_blank_rows := false }
        (fun _ _ => "") {} [("T", " ")]).stats.kept_rows +
        (processRow
          { source_mapping := [("t", "T")], remove_blank_rows := false }
          (fun _ _ => "") {} [("T", " ")]).stats.duplicate_rows =
        ({} : LoopState).stats.kept_rows +
          ({} : LoopState).stats.duplicate_rows + 1)
  ∧ ((cleanStep {} (fun _ => "")
        { current_product_id := 0 } []).stats.deleted_rows =
      ({ current_product_id := 0 } : CleanState).stats.deleted_rows + 1)
  ∧ ((cleanStep { remove_blank_rows := some false } (fun _ => "")
        { current_product_id := 0 } []).stats.deleted_rows =
        ({ current_product_id := 0 } : CleanState).stats.deleted_rows ∧
      (cleanStep { remove_blank_rows := some false } (fun _ => "")
        { current_product_id := 0 } []).stats.kept_rows =
        ({ current_product_id := 0 } : CleanState).stats.kept_rows + 1) := by
  refine ⟨?_, ?_, ?_, ?_⟩
  · exact ((c5_blank_iff.1 { source_mapping := [("t", "T")] }
      (fun _ _ => "") {} [("T", " ")]).1).mpr
      ⟨rfl, ⟨("t", "T"), by decide, by decide⟩⟩
  · exact (c5_blank_iff.1
      { source_mapping := [("t", "T")], remove_blank_rows := false }
      (fun _ _ => "") {} [("T", " ")]).2 rfl
  · exact ((c5_blank_iff.2 {} (fun _ => "")
      { current_product_id := 0 } []).1).mpr
      ⟨rfl, ⟨("searchx-product-e-slider__link href", "product_url"),
        by decide, by decide⟩⟩
  · exact (c5_blank_iff.2 { remove_blank_rows := some false }
      (fun _ => "") { current_product_id := 0 } []).2 rfl

/-- **C7.** With `remove_duplicates` on and the duplicate key field among
the mapped output fields: a row whose key value is already in `seen_values`
is dropped as a duplicate — the state is exactly the old state with
`total_rows` and `duplicate_rows` bumped, so nothing is written, no
generated field is computed (`generated_values` untouched), `row_number`
stays, and `seen_values` is not mutated again.  A row whose key value is
new is kept: the value is inserted into `seen_values`, `kept_rows` is
bumped, the duplicate counter is not, and the record is written. -/
theorem c7_duplicate_filter (cfg : ProcConfig)
    (env : Nat → String → String) (st : LoopState) (row : Row)
    (mapped : List (String × String)) (dup_value : String)
    (hdup : cfg.remove_duplicates = true)
    (hm : mapSourceColumns cfg.source_mapping row cfg.remove_blank_rows =
      some mapped)
    (ha : alookup cfg.duplicate_check_column mapped = some dup_value) :
    (dup_value ∈ st.seen_values →
      processRow cfg env st row =
        { st with stats := { st.stats with
            total_rows := st.stats.total_rows + 1
            duplicate_rows := st.stats.duplicate_rows + 1 } }) ∧
    (dup_value ∉ st.seen_values →
      (processRow cfg env st row).seen_values =
        st.seen_values.insert dup_value ∧
      (processRow cfg env st row).stats.kept_rows =
        st.stats.kept_rows + 1 ∧
      (processRow cfg env st row).stats.duplicate_rows =
        st.stats.duplicate_rows ∧
      ∃ rec, (processRow cfg env st row).written = st.written ++ [rec]) := by
  constructor
  · intro hmem
    simp only [processRow, hm]
    rw [if_pos hdup]
    simp only [ha]
    rw [if_pos hmem]
  · intro hmem
    simp only [processRow, hm]
    rw [if_pos hdup]
    simp only [ha]
    rw [if_neg hmem]
    exact ⟨rfl, rfl, rfl, ⟨_, rfl⟩⟩

/-- Witness for C7: with `seen = ["a"]`, a second row mapping to `"a"` is
dropped exactly as described, and a fresh row mapping to `"b"` is kept
with `"b"` inserted. -/
theorem c7_duplicate_filter_witness :
    (processRow
        { source_mapping := [("t", "T")], remove_duplicates := true,
          duplicate_check_column := "t" }
        (fun _ _ => "") { seen_values := ["a"] } [("T", "a")] =
      { ({ seen_values := ["a"] } : LoopState) with
        stats := { ({ seen_values := ["a"] } : LoopState).stats with
          total_rows :=
            ({ seen_values := ["a"] } : LoopState).stats.total_rows + 1
          duplicate_rows :=
            ({ seen_values := ["a"] } :
              LoopState).stats.duplicate_rows + 1 } }) ∧
    (processRow
        { source_mapping := [("t", "T")], remove_duplicates := true,
          duplicate_check_column := "t" }
        (fun _ _ => "") { seen_values := ["a"] } [("T", "b")]).seen_values =
      (["a"] : List String).insert "b" := by
  constructor
  · exact (c7_duplicate_filter
      { source_mapping := [("t", "T")], remove_duplicates := true,
        duplicate_check_column := "t" }
      (fun _ _ => "") { seen_values := ["a"] } [("T", "a")]
      [("t", "a")] "a" rfl rfl rfl).1 (by decide)
  · exact ((c7_duplicate_filter
      { source_mapping := [("t", "T")], remove_duplicates := true,
        duplicate_check_column := "t" }
      (fun _ _ => "") { seen_values := ["a"] } [("T", "b")]
      [("t", "b")] "b" rfl rfl rfl).2 (by decide)).1

/-- Paired fold: a binary relation preserved by two step functions in
lockstep is preserved by the two folds. -/
theorem foldl_rel {σ₁ σ₂ α : Type} (R : σ₁ → σ₂ → Prop)
    (f₁ : σ₁ → α → σ₁) (f₂ : σ₂ → α → σ₂)
    (hstep : ∀ s₁ s₂ a, R s₁ s₂ → R (f₁ s₁ a) (f₂ s₂ a)) :
    ∀ (l : List α) (s₁ : σ₁) (s₂ : σ₂), R s₁ s₂ →
      R (l.foldl f₁ s₁) (l.foldl f₂ s₂) := by
  intro l
  induction l with
  | nil => intro s₁ s₂ h; exact h
  | cons a t ih => intro s₁ s₂ h; exact ih _ _ (hstep s₁ s₂ a h)

/-- The statistics, seen-set and row counter of the row loop do not depend
on the generated-columns configuration or on the oracle: generation
happens strictly after the keep/blank/duplicate decision. -/
theorem processRow_stats_indep (cfg : ProcConfig)
    (g₁ g₂ : List (String × ColConfig))
    (env₁ env₂ : Nat → String → String) (st₁ st₂ : LoopState) (row : Row)
    (h : st₁.stats = st₂.stats ∧ st₁.seen_values = st₂.seen_values ∧
      st₁.row_number = st₂.row_number) :
    (processRow { cfg with generated_columns := g₁ } env₁ st₁ row).stats =
      (processRow { cfg with generated_columns := g₂ } env₂ st₂ row).stats ∧
    (processRow { cfg with generated_columns := g₁ } env₁ st₁
        row).seen_values =
      (processRow { cfg with generated_columns := g₂ } env₂ st₂
        row).seen_values ∧
    (processRow { cfg with generated_columns := g₁ } env₁ st₁
        row).row_number =
      (processRow { cfg with generated_columns := g₂ } env₂ st₂
        row).row_number := by
  obtain ⟨hstats, hseen, hrn⟩ := h
  simp only [processRow, keepRow]
  rcases hm : mapSourceColumns cfg.source_mapping row cfg.remove_blank_rows
    with _ | mapped
  · simp only [hm]
    exact ⟨by rw [hstats], hseen, hrn⟩
  · simp only [hm]
    by_cases hdup : cfg.remove_duplicates = true
    · rw [if_pos hdup, if_pos hdup]
      rcases ha : alookup cfg.duplicate_check_column mapped with _ | v
      · simp only [ha]
        exact ⟨by rw [hstats], hseen, by rw [hrn]⟩
      · simp only [ha]
        by_cases hmem : v ∈ st₁.seen_values
        · rw [if_pos hmem, if_pos (hseen ▸ hmem)]
          exact ⟨by rw [hstats], hseen, hrn⟩
        · rw [if_neg hmem, if_neg (hseen ▸ hmem)]
          exact ⟨by rw [hstats], by rw [hseen], by rw [hrn]⟩
    · rw [if_neg hdup, if_neg hdup]
      exact ⟨by rw [hstats], hseen, by rw [hrn]⟩

/-- **C8.** A generator spec whose type tag matches none of the five
recognized types yields the empty string from `generate_value` — no error
is raised (the function is total).  Moreover the run's statistics are
entirely independent of the generated-columns configuration and of the
oracle, so rows processed with an unknown-type generator are kept exactly
as they would otherwise be and the run continues. -/
theorem c8_unknown_generator_type :
    (∀ (cc : ColConfig) (row_number : Nat) (prev : Option PyVal)
        (envStr : String),
      cc.type.getD "static" ∉
        ["sequential", "random_hex", "uuid", "static", "timestamp"] →
      generate_value cc row_number prev envStr = PyVal.strV "") ∧
    (∀ (cfg : ProcConfig) (g₁ g₂ : List (String × ColConfig))
        (env₁ env₂ : Nat → String → String) (p₁ p₂ : Bool)
        (fieldnames : Option (List String)) (rows : List Row),
      (process_csv { cfg with generated_columns := g₁ } env₁ p₁
          fieldnames rows).stats =
        (process_csv { cfg with generated_columns := g₂ } env₂ p₂
          fieldnames rows).stats) := by
  constructor
  · intro cc row_number prev envStr h
    simp only [List.mem_cons, List.not_mem_nil, or_false] at h
    push_neg at h
    obtain ⟨h1, h2, h3, h4, h5⟩ := h
    rw [generate_value]
    simp only [if_neg h1, if_neg h2, if_neg h3, if_neg h4, if_neg h5]
  · intro cfg g₁ g₂ env₁ env₂ p₁ p₂ fieldnames rows
    rcases fieldnames with _ | fns
    · rfl
    · have e₁ : missing_cols { cfg with generated_columns := g₁ } fns =
        missing_cols cfg fns := rfl
      have e₂ : missing_cols { cfg with generated_columns := g₂ } fns =
        missing_cols cfg fns := rfl
      by_cases hmiss : missing_cols cfg fns ≠ []
      · simp only [process_csv]
        rw [e₁, e₂, if_pos hmiss, if_pos hmiss]
      · simp only [process_csv]
        rw [e₁, e₂, if_neg hmiss, if_neg hmiss]
        exact (foldl_rel
          (fun (s₁ s₂ : LoopState) => s₁.stats = s₂.stats ∧
            s₁.seen_values = s₂.seen_values ∧
            s₁.row_number = s₂.row_number)
          (processRow { cfg with generated_columns := g₁ } env₁)
          (processRow { cfg with generated_columns := g₂ } env₂)
          (fun s₁ s₂ a hr =>
            processRow_stats_indep cfg g₁ g₂ env₁ env₂ s₁ s₂ a hr)
          rows {} {} ⟨rfl, rfl, rfl⟩).1

/-- Witness for C8: the unrecognized tag `"foo"` produces the empty
string. -/
theorem c8_unknown_generator_type_witness :
    generate_value { type := some "foo" } 0 none "xyz" = PyVal.strV "" :=
  c8_unknown_generator_type.1 { type := some "foo" } 0 none "xyz"
    (by decide)

/-- **C10.** A generator spec with no type tag at all behaves exactly as a
`static` spec — `generate_value` defaults the missing tag to `'static'` —
and returns the spec's `value` entry, or the empty string when that is
also absent. -/
theorem c10_missing_type_is_static (cc : ColConfig) (row_number : Nat)
    (prev : Option PyVal) (envStr : String) (h : cc.type = none) :
    generate_value cc row_number prev envStr =
      generate_value { cc with type := some "static" } row_number prev
        envStr ∧
    generate_value cc row_number prev envStr =
      PyVal.strV (cc.value.getD "") := by
  constructor
  · rw [generate_value, generate_value, h]
    rfl
  · rw [generate_value, h]
    rfl

/-- Witness for C10: a typeless spec with `value = "x"` yields `"x"`, and
agrees with the corresponding `static` spec. -/
theorem c10_missing_type_is_static_witness :
    (generate_value { value := some "x" } 0 none "zzz" =
      generate_value { ({ value := some "x" } : ColConfig) with
        type := some "static" } 0 none "zzz") ∧
    generate_value { value := some "x" } 0 none "zzz" =
      PyVal.strV ((some "x").getD "") :=
  c10_missing_type_is_static { value := some "x" } 0 none "zzz" rfl

theorem alookup_map_strV (k : String) :
    ∀ m : List (String × String),
      alookup k (m.map (fun q => (q.1, PyVal.strV q.2))) =
        (alookup k m).map PyVal.strV := by
  intro m
  induction m with
  | nil => rfl
  | cons q rest ih =>
    obtain ⟨q₁, q₂⟩ := q
    by_cases hk : q₁ = k
    · simp only [List.map_cons, alookup_cons, if_pos hk]
      rfl
    · simp only [List.map_cons, alookup_cons, if_neg hk]
      exact ih

/-- **C6 counterexample.** The claim fails when a generated column shares
its name with a mapped output field: with mapping `{id: src_id}` and a
static generated column also called `id`, the kept row's `id` field is
written as the generated `"X"`, not as the trimmed source value `"7"` —
the generated-columns loop overwrites the mapped value in place. -/
theorem c6_mapped_value_counterexample :
    ¬ (∀ rec ∈ (process_csv
        { source_mapping := [("id", "src_id")],
          generated_columns :=
            [("id", { type := some "static", value := some "X" })] }
        (fun _ _ => "") true (some ["src_id"])
        [[("src_id", "7")]]).written,
      ∀ p ∈ [(("id" : String), ("src_id" : String))],
        alookup p.1 rec =
          some (PyVal.strV (pyStrip (rowGet [("src_id", "7")] p.2)))) := by
  decide

/-- **C6 (amended).** For every kept row, every mapped output field whose
name is not also a generated column's name is written as exactly the
trimmed source value (an absent source field acting as the empty string);
no other transformation is applied.  In `clean_alibaba_csv` the same holds
for every kept row in which no kept source column was blank (the fixed
generated names never collide with the four mapped names; distinct
configured source columns assumed, as the source's dict construction
guarantees). -/
theorem c6_mapped_values_roundtrip :
    (∀ (cfg : ProcConfig) (env : Nat → String → String) (st : LoopState)
        (row : Row) (rec : Rec),
      (cfg.source_mapping.map (fun p => p.1)).Nodup →
      (processRow cfg env st row).written = st.written ++ [rec] →
      ∀ p ∈ cfg.source_mapping,
        p.1 ∉ cfg.generated_columns.map (fun q => q.1) →
        alookup p.1 rec = some (PyVal.strV (pyStrip (rowGet row p.2))))
  ∧ (∀ (cfg : CleanConfig) (env : Int → String) (st : CleanState)
        (row : Row) (rec : Rec),
      ((COLUMNS_TO_KEEP cfg).map (fun p => p.1)).Nodup →
      (extractColumns (COLUMNS_TO_KEEP cfg) row).1 = false →
      (cleanStep cfg env st row).written = st.written ++ [rec] →
      ∀ p ∈ COLUMNS_TO_KEEP cfg,
        alookup p.2 rec = some (PyVal.strV (pyStrip (rowGet row p.1)))) := by
  constructor
  · intro cfg env st row rec hnd hw p hp hgen
    rcases processRow_cases cfg env st row with
      ⟨_, heq⟩ | ⟨m, v, _, _, _, _, heq⟩ | ⟨m, s', hm, heq⟩
    · rw [heq] at hw
      dsimp only at hw
      have hlen := congrArg List.length hw
      rw [List.length_append, List.length_singleton] at hlen
      exact absurd hlen (by omega)
    · rw [heq] at hw
      dsimp only at hw
      have hlen := congrArg List.length hw
      rw [List.length_append, List.length_singleton] at hlen
      exact absurd hlen (by omega)
    · rw [heq] at hw
      obtain ⟨_, _, _, _, _, h6⟩ := keepRow_fields cfg (env st.row_number)
        { st with
          seen_values := s'
          stats := { st.stats with
            total_rows := st.stats.total_rows + 1 } }
        (m.map (fun q => (q.1, PyVal.strV q.2)))
      rw [h6] at hw
      dsimp only at hw
      have hrec := List.append_cancel_left hw
      have hrec' := (List.cons.injEq _ _ _ _).mp hrec
      rw [← hrec'.1]
      rw [addGenerated_alookup_preserve _ _ _ _ hgen]
      rw [alookup_map_strV]
      rw [mapSourceColumns_alookup cfg.source_mapping row
        cfg.remove_blank_rows m hnd hm p hp]
      rfl
  · intro cfg env st row rec hnd hnb hw p hp
    have hc : (extractColumns (COLUMNS_TO_KEEP cfg) row).1 = false ∨
        cfg.remove_blank_rows.getD true = false := Or.inl hnb
    simp only [cleanStep] at hw
    rw [if_pos hc] at hw
    dsimp only at hw
    have hrec := List.append_cancel_left hw
    have hrec' := (List.cons.injEq _ _ _ _).mp hrec
    rw [← hrec'.1]
    have hout : p.2 = "product_url" ∨ p.2 = "image_url" ∨ p.2 = "price" ∨
        p.2 = "title" := by
      simp only [COLUMNS_TO_KEEP, List.mem_cons, List.not_mem_nil,
        or_false] at hp
      rcases hp with hp | hp | hp | hp <;> rw [hp]
      · left; rfl
      · right; left; rfl
      · right; right; left; rfl
      · right; right; right; rfl
    have hne : ∀ g ∈ ["product_id", "sku", "category", "tags"],
        p.2 ≠ g := by
      intro g hg
      rcases hout with h | h | h | h <;> rw [h] <;>
        simp only [List.mem_cons, List.not_mem_nil, or_false] at hg <;>
        rcases hg with rfl | rfl | rfl | rfl <;> decide
    rw [dictSet_alookup_ne _ _ _ _ (hne "tags" (by decide)),
      dictSet_alookup_ne _ _ _ _ (hne "category" (by decide)),
      dictSet_alookup_ne _ _ _ _ (hne "sku" (by decide)),
      dictSet_alookup_ne _ _ _ _ (hne "product_id" (by decide))]
    rw [alookup_map_strV]
    rw [extractColumns_alookup (COLUMNS_TO_KEEP cfg) row
      (by simp [COLUMNS_TO_KEEP]) hnb p hp]
    rfl

/-- Witness for C6 (amended): a kept row with mapping `{t: T}`, no
generated columns, source value `" x "` — the written field is the
stripped `"x"`; and a default Alibaba row round-trips its four fields. -/
theorem c6_mapped_values_roundtrip_witness :
    ((processRow { source_mapping := [("t", "T")] } (fun _ _ => "") {}
        [("T", " x ")]).written =
      ({} : LoopState).written ++ [[("t", PyVal.strV "x")]] ∧
      alookup "t" [("t", PyVal.strV "x")] =
        some (PyVal.strV (pyStrip (rowGet [("T", " x ")] "T"))))
  ∧ ((cleanStep {} (fun _ => "R") { current_product_id := 5 }
        [("searchx-product-e-slider__link href", "u"),
          ("searchx-product-e-slider__img src", "i"),
          ("searchx-product-price-price-main", "p"),
          ("searchx-product-e-title", "t")]).written =
      ({ current_product_id := 5 } : CleanState).written ++
        [[("product_url", PyVal.strV "u"), ("image_url", PyVal.strV "i"),
          ("price", PyVal.strV "p"), ("title", PyVal.strV "t"),
          ("product_id", PyVal.intV 5), ("sku", PyVal.strV "R"),
          ("category", PyVal.strV "Uncategorized"),
          ("tags", PyVal.strV "")]] ∧
      alookup "title"
        [("product_url", PyVal.strV "u"), ("image_url", PyVal.strV "i"),
          ("price", PyVal.strV "p"), ("title", PyVal.strV "t"),
          ("product_id", PyVal.intV 5), ("sku", PyVal.strV "R"),
          ("category", PyVal.strV "Uncategorized"),
          ("tags", PyVal.strV "")] =
        some (PyVal.strV (pyStrip (rowGet
          [("searchx-product-e-slider__link href", "u"),
            ("searchx-product-e-slider__img src", "i"),
            ("searchx-product-price-price-main", "p"),
            ("searchx-product-e-title", "t")]
          "searchx-product-e-title")))) := by
  constructor
  · refine ⟨rfl, ?_⟩
    exact c6_mapped_values_roundtrip.1 { source_mapping := [("t", "T")] }
      (fun _ _ => "") {} [("T", " x ")] [("t", PyVal.strV "x")]
      (by decide) rfl ("t", "T") (by decide) (by decide)
  · refine ⟨rfl, ?_⟩
    exact c6_mapped_values_roundtrip.2 {} (fun _ => "R")
      { current_product_id := 5 }
      [("searchx-product-e-slider__link href", "u"),
        ("searchx-product-e-slider__img src", "i"),
        ("searchx-product-price-price-main", "p"),
        ("searchx-product-e-title", "t")]
      [("product_url", PyVal.strV "u"), ("image_url", PyVal.strV "i"),
        ("price", PyVal.strV "p"), ("title", PyVal.strV "t"),
        ("product_id", PyVal.intV 5), ("sku", PyVal.strV "R"),
        ("category", PyVal.strV "Uncategorized"),
        ("tags", PyVal.strV "")]
      (by decide) (by decide) rfl
      ("searchx-product-e-title", "title") (by decide)

/-- **C9 counterexample.** In `clean_alibaba_csv` the `config.json`
rewrite is not individually guarded: when it fails (`persistOk = false`)
after the data output has been fully written (one kept row is on disk),
the exception reaches the function-level handler and the run reports
failure — contradicting the claim that a persist failure leaves the run
successful. -/
theorem c9_persist_failure_counterexample :
    (clean_alibaba_csv {} (fun _ => "") false
      (some ["searchx-product-e-slider__link href",
        "searchx-product-e-slider__img src",
        "searchx-product-price-price-main",
        "searchx-product-e-title"])
      [[("searchx-product-e-slider__link href", "u"),
        ("searchx-product-e-slider__img src", "i"),
        ("searchx-product-price-price-main", "p"),
        ("searchx-product-e-title", "t")]]).written ≠ [] ∧
    (clean_alibaba_csv {} (fun _ => "") false
      (some ["searchx-product-e-slider__link href",
        "searchx-product-e-slider__img src",
        "searchx-product-price-price-main",
        "searchx-product-e-title"])
      [[("searchx-product-e-slider__link href", "u"),
        ("searchx-product-e-slider__img src", "i"),
        ("searchx-product-price-price-main", "p"),
        ("searchx-product-e-title", "t")]]).success = false := by
  constructor
  · decide
  · rfl

/-- **C9 (amended).** In `process_csv` a failing `config.json` rewrite
after a fully written run is only a warning: the run's success, data
output and statistics are identical to those of a run whose persist
succeeds, every validated run succeeds, and exactly the runs that attempt
the rewrite (`update_product_id_start` set, some sequential column,
`auto_update_config` set) raise the warning.  In `clean_alibaba_csv` the
data output is likewise not rolled back, but the run reports failure
instead of success. -/
theorem c9_persist_failure_warning :
    (∀ (cfg : ProcConfig) (env : Nat → String → String) (persistOk : Bool)
        (fieldnames : Option (List String)) (rows : List Row),
      (process_csv cfg env persistOk fieldnames rows).success =
        (process_csv cfg env true fieldnames rows).success ∧
      (process_csv cfg env persistOk fieldnames rows).written =
        (process_csv cfg env true fieldnames rows).written ∧
      (process_csv cfg env persistOk fieldnames rows).stats =
        (process_csv cfg env true fieldnames rows).stats ∧
      ((process_csv cfg env persistOk fieldnames rows).error = none →
        (process_csv cfg env persistOk fieldnames rows).success = true) ∧
      ((process_csv cfg env false fieldnames rows).error = none →
        (process_csv cfg env false fieldnames rows).persistWarning =
          (cfg.update_product_id_start &&
            cfg.generated_columns.any
              (fun p => decide (p.2.type = some "sequential")) &&
            cfg.auto_update_config)))
  ∧ (∀ (cfg : CleanConfig) (env : Int → String)
        (fieldnames : Option (List String)) (rows : List Row),
      (clean_alibaba_csv cfg env false fieldnames rows).written =
        (clean_alibaba_csv cfg env true fieldnames rows).written ∧
      ((clean_alibaba_csv cfg env true fieldnames rows).success = true →
        (clean_alibaba_csv cfg env false fieldnames rows).success =
          false)) := by
  constructor
  · intro cfg env persistOk fieldnames rows
    rcases fieldnames with _ | fns
    · exact ⟨rfl, rfl, rfl, fun h => Option.noConfusion h,
        fun h => Option.noConfusion h⟩
    · by_cases hmiss : missing_cols cfg fns ≠ []
      · simp only [process_csv]
        rw [if_pos hmiss, if_pos hmiss, if_pos hmiss]
        exact ⟨rfl, rfl, rfl, fun h => Option.noConfusion h,
          fun h => Option.noConfusion h⟩
      · simp only [process_csv]
        rw [if_neg hmiss, if_neg hmiss, if_neg hmiss]
        refine ⟨rfl, rfl, rfl, fun _ => rfl, fun _ => ?_⟩
        simp
  · intro cfg env fieldnames rows
    rcases fieldnames with _ | fns
    · exact ⟨rfl, fun h => Bool.noConfusion h⟩
    · by_cases hmiss : clean_missing_cols cfg fns ≠ []
      · simp only [clean_alibaba_csv]
        rw [if_pos hmiss, if_pos hmiss]
        exact ⟨rfl, fun h => Bool.noConfusion h⟩
      · simp only [clean_alibaba_csv]
        rw [if_neg hmiss, if_neg hmiss]
        exact ⟨rfl, fun _ => rfl⟩

/-- Witness for C9 (amended): a concrete `process_csv` run with a failing
persist still succeeds with its row written, and the corresponding
successful-persist Alibaba run turning into a failure when the persist
fails. -/
theorem c9_persist_failure_warning_witness :
    ((process_csv
        { generated_columns :=
            [("id", { type := some "sequential", start := some 1 })],
          update_product_id_start := true }
        (fun _ _ => "") false (some []) [[]]).error = none ∧
      (process_csv
        { generated_columns :=
            [("id", { type := some "sequential", start := some 1 })],
          update_product_id_start := true }
        (fun _ _ => "") false (some []) [[]]).success = true ∧
      (process_csv
        { generated_columns :=
            [("id", { type := some "sequential", start := some 1 })],
          update_product_id_start := true }
        (fun _ _ => "") false (some []) [[]]).persistWarning =
        ((true : Bool) && true && true))
  ∧ ((clean_alibaba_csv {} (fun _ => "") true (some
        ["searchx-product-e-slider__link href",
          "searchx-product-e-slider__img src",
          "searchx-product-price-price-main",
          "searchx-product-e-title"]) []).success = true ∧
      (clean_alibaba_csv {} (fun _ => "") false (some
        ["searchx-product-e-slider__link href",
          "searchx-product-e-slider__img src",
          "searchx-product-price-price-main",
          "searchx-product-e-title"]) []).success = false) := by
  constructor
  · refine ⟨rfl, ?_, ?_⟩
    · exact ((c9_persist_failure_warning.1
        { generated_columns :=
            [("id", { type := some "sequential", start := some 1 })],
          update_product_id_start := true }
        (fun _ _ => "") false (some []) [[]]).2.2.2.1) rfl
    · exact ((c9_persist_failure_warning.1
        { generated_columns :=
            [("id", { type := some "sequential", start := some 1 })],
          update_product_id_start := true }
        (fun _ _ => "") false (some []) [[]]).2.2.2.2) rfl
  · refine ⟨rfl, ?_⟩
    exact (c9_persist_failure_warning.2 {} (fun _ => "")
      (some ["searchx-product-e-slider__link href",
        "searchx-product-e-slider__img src",
        "searchx-product-price-price-main",
        "searchx-product-e-title"]) []).2 rfl

end CsvPipeline
